import Mathlib

/-!
Shallow embedding of the MediScan document-processing pipeline:
the ProcessingJob model (Backend/src/models/ProcessingJob.js), the
HMAC-signed AI-service callback (utils/crypto.js and the internal
routes file), the upload/dispatch flow (controllers/fileController.js),
the File model (models/File.js) and the AuditLog ledger
(models/AuditLog.js).  JavaScript numbers that only ever hold integers
or halves of integers are modelled as Nat/Int/Rat; `Math.round` is
modelled exactly for the non-negative arguments that occur here.
-/

namespace MediScan

/-- Per-step status enum from the processingSteps subschema
(ProcessingJob.js lines 44-48). -/
inductive StepStatus
  | pending
  | processing
  | completed
  | failed
  | skipped
deriving DecidableEq, Repr

/-- Job status enum (ProcessingJob.js lines 22-27). -/
inductive JobStatus
  | queued
  | processing
  | completed
  | failed
  | cancelled
deriving DecidableEq, Repr

/-- File lifecycle status enum (File.js lines 54-59). -/
inductive FileStatus
  | uploaded
  | processing
  | completed
  | failed
  | deleted
deriving DecidableEq, Repr

def fileValidationName : String := "file_validation"

def ocrProcessingName : String := "ocr_processing"

def textExtractionName : String := "text_extraction"

def entityExtractionName : String := "entity_extraction"

def summarizationName : String := "summarization"

def qualityCheckName : String := "quality_check"

def textProcessingName : String := "text_processing"

def processingErrorCode : String := "PROCESSING_ERROR"

/-- One entry of processingSteps (ProcessingJob.js lines 39-54).
The Mixed-typed `details` blob is omitted: no state transition or
claim reads it back, only the `details.error` string which is kept
as the `error` field. -/
structure Step where
  name : String
  status : StepStatus
  startedAt : Option Nat := none
  completedAt : Option Nat := none
  duration : Option Int := none
  error : Option String := none
deriving DecidableEq, Repr

/-- The errorDetails nested object (ProcessingJob.js lines 190-203).
The `stack` string is omitted (never read back).  `maxRetries` is an
Option: the schema default 3 is applied at document construction and
hydration, but errorDetails is a nested POJO path, so an assignment
of a plain object sets exactly the provided keys — a key absent from
the assigned value reads as undefined (`none`) afterwards. -/
structure ErrorDetails where
  code : String
  message : String
  timestamp : Nat
  retryCount : Nat
  maxRetries : Option Nat
deriving DecidableEq, Repr

/-- The performance subdocument (ProcessingJob.js lines 204-212);
memoryUsage/cpuTime are never written and omitted. -/
structure Performance where
  queuedAt : Option Nat := none
  startedAt : Option Nat := none
  completedAt : Option Nat := none
  totalDuration : Option Int := none
  processingDuration : Option Int := none
deriving DecidableEq, Repr

/-- A ProcessingJob document.  The structured results payload is kept
opaque (a string stands for the whole results subdocument): every
claim treats it as a value that is stored and compared, never
inspected.  `createdAt` is the mongoose timestamp used by
markCompleted. -/
structure Job where
  jobId : String
  status : JobStatus := JobStatus.queued
  progress : Int := 0
  processingSteps : List Step := []
  results : Option String := none
  errorDetails : Option ErrorDetails := none
  performance : Performance := {}
  createdAt : Nat := 0
deriving DecidableEq, Repr

/-- JavaScript Math.round for the non-negative rationals produced by
the progress computations: round half away from zero, i.e.
floor (q + 1/2). -/
def jsRound (q : ℚ) : ℤ := ⌊q + 1 / 2⌋

/-- The stepWeights lookup table of updateProgress
(ProcessingJob.js lines 315-322); `stepWeights[step.name] || 10`
yields 10 for any name outside the table. -/
def stepWeight (name : String) : ℕ :=
  if name = fileValidationName then 5
  else if name = ocrProcessingName then 30
  else if name = textExtractionName then 20
  else if name = entityExtractionName then 25
  else if name = summarizationName then 15
  else if name = qualityCheckName then 5
  else 10

/-- Credit a step contributes in updateProgress: full weight when
completed, half when processing, zero otherwise
(ProcessingJob.js lines 331-336). -/
def stepCredit : StepStatus → ℚ
  | StepStatus.completed => 1
  | StepStatus.processing => 1 / 2
  | _ => 0

/-- totalWeight accumulated over the steps (ProcessingJob.js
lines 327-329). -/
def totalWeight (steps : List Step) : ℚ :=
  (steps.map fun s => ((stepWeight s.name : ℚ))).sum

/-- completedWeight accumulated over the steps (ProcessingJob.js
lines 327-336). -/
def completedWeight (steps : List Step) : ℚ :=
  (steps.map fun s => ((stepWeight s.name : ℚ)) * stepCredit s.status).sum

/-- Method updateProgress (ProcessingJob.js lines 311-339): early
return on an empty step list, otherwise
progress = Math.round((completedWeight / totalWeight) * 100),
with the 0 fallback for a zero total weight. -/
def updateProgress (j : Job) : Job :=
  if j.processingSteps = [] then j
  else
    let tw := totalWeight j.processingSteps
    let cw := completedWeight j.processingSteps
    { j with progress := if 0 < tw then jsRound (cw / tw * 100) else 0 }

/-- Mutation of the step found by updateStep
(ProcessingJob.js lines 274-290): set status, stamp startedAt on
first entry to processing, stamp completedAt/duration on terminal
step statuses, record details.error on failure. -/
def applyStepUpdate (s : Step) (status : StepStatus) (detailsError : Option String)
    (now : Nat) : Step :=
  let s := { s with status := status }
  let s :=
    if status = StepStatus.processing ∧ s.startedAt = none then
      { s with startedAt := some now }
    else s
  let s :=
    if status = StepStatus.completed ∨ status = StepStatus.failed ∨
        status = StepStatus.skipped then
      let s := { s with completedAt := some now }
      match s.startedAt with
      | some t0 => { s with duration := some ((now : ℤ) - (t0 : ℤ)) }
      | none => s
    else s
  if status = StepStatus.failed ∧ detailsError.isSome then
    { s with error := detailsError }
  else s

/-- processingSteps.find mutates the first step with the given name
in place; the remaining list is untouched. -/
def updateFirstStep (name : String) (f : Step → Step) : List Step → List Step
  | [] => []
  | s :: rest =>
    if s.name = name then f s :: rest else s :: updateFirstStep name f rest

/-- Method updateStep (ProcessingJob.js lines 270-297): mutate the
first step whose name matches (no-op when absent), then recompute the
aggregate progress.  The save() call is the identity on the in-memory
document. -/
def updateStep (j : Job) (stepName : String) (status : StepStatus)
    (detailsError : Option String) (now : Nat) : Job :=
  let steps := updateFirstStep stepName
    (fun s => applyStepUpdate s status detailsError now) j.processingSteps
  updateProgress { j with processingSteps := steps }

/-- A JavaScript Error value as consumed by markFailed: optional
`code` property and a message. -/
structure JsError where
  code : Option String := none
  message : String
deriving DecidableEq, Repr

/-- Step reset applied on a retryable failure (ProcessingJob.js
lines 358-366): steps that were processing or failed go back to
pending with their timing fields cleared; all other steps are left
untouched. -/
def resetStepForRetry (s : Step) : Step :=
  if s.status = StepStatus.processing ∨ s.status = StepStatus.failed then
    { s with
      status := StepStatus.pending
      startedAt := none
      completedAt := none
      duration := none
      error := none }
  else s

/-- Schema default for errorDetails.maxRetries
(ProcessingJob.js lines 199-202), applied by mongoose at document
construction and hydration (not on assignment to the nested path). -/
def defaultMaxRetries : ℕ := 3

/-- The retry counter currently stored on a job:
`this.errorDetails?.retryCount || 0` (markFailed line 349). -/
def currentRetryCount (j : Job) : Nat :=
  match j.errorDetails with
  | some ed => ed.retryCount
  | none => 0

/-- JavaScript `<` between a number and a possibly-undefined number:
`a < undefined` is a NaN comparison and evaluates to false. -/
def jsLt (a : Nat) : Option Nat → Bool
  | some b => decide (a < b)
  | none => false

/-- The plain object markFailed assigns to errorDetails
(ProcessingJob.js lines 344-350): code, message, stack, timestamp and
the carried-over retryCount.  maxRetries is not among the assigned
keys; since errorDetails is a nested POJO path, mongoose sets exactly
these keys and maxRetries reads as undefined afterwards. -/
def rebuiltErrorDetails (j : Job) (err : JsError) (now : Nat) : ErrorDetails :=
  { code := err.code.getD processingErrorCode
    message := err.message
    timestamp := now
    retryCount := currentRetryCount j
    maxRetries := none }

/-- Method markFailed (ProcessingJob.js lines 342-370): set status
failed and rebuild errorDetails.  The retry guard then reads
`this.errorDetails.retryCount < this.errorDetails.maxRetries` on the
just-assigned object, whose maxRetries is undefined, so the
comparison is false on every call: the requeue branch (status queued,
counter increment, step reset, progress 0) is dead code and the job
always stays failed with the counter carried over unchanged. -/
def markFailed (j : Job) (err : JsError) (shouldRetry : Bool) (now : Nat) : Job :=
  if shouldRetry && jsLt (rebuiltErrorDetails j err now).retryCount
      (rebuiltErrorDetails j err now).maxRetries then
    { j with
      status := JobStatus.queued
      errorDetails := some
        { rebuiltErrorDetails j err now with
          retryCount := (rebuiltErrorDetails j err now).retryCount + 1 }
      progress := 0
      processingSteps := j.processingSteps.map resetStepForRetry }
  else
    { j with
      status := JobStatus.failed
      errorDetails := some (rebuiltErrorDetails j err now) }

/-- Method markCompleted (ProcessingJob.js lines 373-385):
unconditionally set status completed, store the results, force
progress to 100, stamp performance.completedAt, and derive the
durations when startedAt is present. -/
def markCompleted (j : Job) (results : String) (now : Nat) : Job :=
  let perf := { j.performance with completedAt := some now }
  let perf :=
    match perf.startedAt with
    | some t0 =>
      { perf with
        totalDuration := some ((now : ℤ) - (j.createdAt : ℤ))
        processingDuration := some ((now : ℤ) - (t0 : ℤ)) }
    | none => perf
  { j with
    status := JobStatus.completed
    results := some results
    progress := 100
    performance := perf }

/-- Virtual completionPercentage (ProcessingJob.js lines 248-256):
100 when completed, 0 when failed or cancelled, otherwise the
unweighted Math.round((completedSteps / totalSteps) * 100), falling
back to the stored progress when the job has no steps. -/
def completionPercentage (j : Job) : ℤ :=
  if j.status = JobStatus.completed then 100
  else if j.status = JobStatus.failed ∨ j.status = JobStatus.cancelled then 0
  else
    let completedSteps :=
      (j.processingSteps.filter fun s => s.status = StepStatus.completed).length
    let totalSteps := j.processingSteps.length
    if 0 < totalSteps then
      jsRound ((completedSteps : ℚ) / (totalSteps : ℚ) * 100)
    else j.progress

/-- The processing sub-object of the status endpoint response
(fileController.js lines 447-460): the stored weighted progress and
the virtual completionPercentage are returned side by side. -/
def getFileStatusProcessing (j : Job) : ℤ × ℤ :=
  (j.progress, completionPercentage j)

/-- Sequences of markFailed calls, folded over a job; used to state
the retry-cap invariant over arbitrary failure histories. -/
def markFailedSeq (j : Job) : List (JsError × Bool × Nat) → Job
  | [] => j
  | (e, r, t) :: rest => markFailedSeq (markFailed j e r t) rest

/- ===== utils/crypto.js: hex encoding and the HMAC verifier ===== -/

/-- Value of one hex digit as decoded by Node's Buffer.from(str,
'hex'): 0-9, a-f and A-F are accepted, anything else is invalid. -/
def hexVal (c : Char) : Option Nat :=
  let n := c.toNat
  if 48 ≤ n ∧ n ≤ 57 then some (n - 48)
  else if 97 ≤ n ∧ n ≤ 102 then some (n - 87)
  else if 65 ≤ n ∧ n ≤ 70 then some (n - 55)
  else none

/-- Node Buffer.from(str, 'hex'): decode complete valid hex pairs
from the start of the string and stop silently at the first invalid
character or incomplete pair (malformed input truncates, it does not
throw). -/
def hexDecode : List Char → List Nat
  | c1 :: c2 :: rest =>
    match hexVal c1, hexVal c2 with
    | some hi, some lo => (16 * hi + lo) :: hexDecode rest
    | _, _ => []
  | _ => []

/-- Lowercase hex digit character for a value below 16, as produced
by digest('hex'). -/
def hexDigitChar (n : Nat) : Char :=
  if n < 10 then Char.ofNat (48 + n) else Char.ofNat (87 + n)

/-- Two lowercase hex digits of one byte. -/
def byteToHex (b : Nat) : List Char :=
  [hexDigitChar (b / 16), hexDigitChar (b % 16)]

/-- Buffer.toString('hex') over a byte sequence. -/
def hexEncode (bs : List Nat) : List Char :=
  (bs.map byteToHex).flatten

/-- A byte sequence: every element below 256. -/
def ValidBytes (bs : List Nat) : Prop := ∀ b ∈ bs, b < 256

instance : DecidablePred ValidBytes := fun bs =>
  inferInstanceAs (Decidable (∀ b ∈ bs, b < 256))

def timingSafeEqualError : String := "ERR_CRYPTO_TIMING_SAFE_EQUAL_LENGTH"

/-- crypto.timingSafeEqual: throws a RangeError when the two buffers
have different byte lengths, otherwise a constant-time content
comparison. -/
def timingSafeEqual (a b : List Nat) : Except String Bool :=
  if a.length = b.length then Except.ok (a == b)
  else Except.error timingSafeEqualError

/-- generateHMACSignature (crypto.js lines 6-11).  The HMAC-SHA256
primitive itself (crypto.createHmac) is kept abstract as the `hmac`
parameter mapping (secret, message) to the digest bytes; the message
the source feeds it is JSON.stringify(payload), so `payload` here is
that serialized byte sequence.  The digest is hex encoded. -/
def generateHMACSignature (hmac : List Nat → List Nat → List Nat)
    (payload secret : List Nat) : List Char :=
  hexEncode (hmac secret payload)

/-- verifyHMACSignature (crypto.js lines 16-22): recompute the
expected signature and compare via
timingSafeEqual(Buffer.from(signature, 'hex'),
Buffer.from(expectedSignature, 'hex')).  A RangeError thrown on a
length mismatch propagates to the caller as the error case. -/
def verifyHMACSignature (hmac : List Nat → List Nat → List Nat)
    (payload : List Nat) (signature : List Char) (secret : List Nat) :
    Except String Bool :=
  let expectedSignature := generateHMACSignature hmac payload secret
  timingSafeEqual (hexDecode signature) (hexDecode expectedSignature)

/- ===== POST /ai/callback handler (internal routes file) ===== -/

def completedString : String := "completed"

def failedString : String := "failed"

def aiProcessingFailedMessage : String := "AI processing failed"

/-- The parsed JSON callback body destructured by the handler:
`const { jobId, status, results, error } = payload`.  The results
subdocument stays opaque; `errorMessage` is `error?.message`. -/
structure CallbackPayload where
  jobId : String
  status : Option String := none
  results : Option String := none
  errorMessage : Option String := none
deriving DecidableEq, Repr

/-- HTTP outcomes of the callback route: 200 accepted, 403
INVALID_SIGNATURE, 404 JOB_NOT_FOUND, and the catch-all 500
CALLBACK_ERROR of the route's try/catch. -/
inductive CallbackHttp
  | accepted
  | invalidSignature
  | jobNotFound
  | callbackError
deriving DecidableEq, Repr

/-- ProcessingJob.findOne({ jobId }). -/
def findJob (jobs : List Job) (jid : String) : Option Job :=
  jobs.find? fun j => j.jobId = jid

/-- Persisting job.save(): replace the document with the given jobId. -/
def saveJob (jobs : List Job) (j2 : Job) : List Job :=
  jobs.map fun j => if j.jobId = j2.jobId then j2 else j

/-- POST /api/v1/internal/ai/callback (internal routes lines
335-438).  Signature check first: a thrown RangeError (malformed or
wrong-length signature encoding) is caught by the route's catch and
answered 500 CALLBACK_ERROR; a clean mismatch is answered 403
INVALID_SIGNATURE.  Then the job lookup, then markCompleted on
`status === 'completed' && results`, markFailed (shouldRetry left at
its default false) on `status === 'failed'`.  The companion File
status flip and the best-effort AuditLog.logEvent touch neither the
response nor the job state and are omitted. -/
def aiCallback (hmac : List Nat → List Nat → List Nat)
    (payload : CallbackPayload) (payloadBytes : List Nat)
    (signature : List Char) (secret : List Nat)
    (jobs : List Job) (now : Nat) : CallbackHttp × List Job :=
  match verifyHMACSignature hmac payloadBytes signature secret with
  | Except.error _ => (CallbackHttp.callbackError, jobs)
  | Except.ok false => (CallbackHttp.invalidSignature, jobs)
  | Except.ok true =>
    match findJob jobs payload.jobId with
    | none => (CallbackHttp.jobNotFound, jobs)
    | some job =>
      let failedErr : JsError :=
        { message := payload.errorMessage.getD aiProcessingFailedMessage }
      let job2 :=
        match payload.results with
        | some r =>
          if payload.status = some completedString then markCompleted job r now
          else if payload.status = some failedString then
            markFailed job failedErr false now
          else job
        | none =>
          if payload.status = some failedString then
            markFailed job failedErr false now
          else job
      (CallbackHttp.accepted, saveJob jobs job2)

/- ===== File model and the upload/dispatch flow ===== -/

/-- A File document (models/File.js), reduced to the fields the
upload flow reads or writes: owner, content checksum, lifecycle
status, optional pre-extracted text and the processing-job linkage. -/
structure FileRec where
  id : Nat
  userId : Nat
  checksum : String
  status : FileStatus := FileStatus.uploaded
  extractedText : Option String := none
  processingJob : Option String := none
deriving DecidableEq, Repr

/-- The duplicate check of uploadFile (fileController.js line 155):
File.findOne({ checksum, userId: user._id }).  The query carries no
status condition, so soft-deleted files match as well. -/
def findDuplicate (files : List FileRec) (userId : Nat) (checksum : String) :
    Option FileRec :=
  files.find? fun f => f.checksum = checksum ∧ f.userId = userId

/-- Upload endpoint responses relevant here: 202 accepted carrying
data.status = processingJob.status, and 409 DUPLICATE_FILE. -/
inductive UploadResponse
  | accepted (jobStatus : JobStatus)
  | duplicateFile (existingFileId : Nat)
deriving DecidableEq, Repr

/-- Outcome of the axios.post to the AI service: success, or a throw
(network failure or non-2xx response). -/
inductive DispatchOutcome
  | success
  | failure
deriving DecidableEq, Repr

def aiServiceErrorCode : String := "AI_SERVICE_ERROR"

def aiServiceErrorMessage : String := "Failed to send file to AI service"

/-- The dispatch try/catch of uploadFile (fileController.js lines
260-334).  On success nothing further is written: the job keeps its
prior state (it stays queued).  On a throw the catch block assigns
job.status = 'failed' and rebuilds errorDetails with only code,
message and timestamp.  Nothing reads retryCount or maxRetries before
the document is persisted, and every later read happens on a
rehydrated document where the schema defaults yield 0 and 3, so those
two fields are modelled with the rehydrated values here.  The file is
flipped to failed. -/
def applyDispatchOutcome (job : Job) (file : FileRec)
    (outcome : DispatchOutcome) (now : Nat) : Job × FileRec :=
  match outcome with
  | DispatchOutcome.success => (job, file)
  | DispatchOutcome.failure =>
    ({ job with
        status := JobStatus.failed
        errorDetails := some
          { code := aiServiceErrorCode
            message := aiServiceErrorMessage
            timestamp := now
            retryCount := 0
            maxRetries := some defaultMaxRetries } },
      { file with status := FileStatus.failed })

/-- Step plan when pre-extracted text accompanies the upload
(fileController.js lines 205-211). -/
def stepPlanWithText : List Step :=
  [ { name := fileValidationName, status := StepStatus.completed }
  , { name := textProcessingName, status := StepStatus.pending }
  , { name := entityExtractionName, status := StepStatus.pending }
  , { name := summarizationName, status := StepStatus.pending }
  , { name := qualityCheckName, status := StepStatus.pending } ]

/-- Step plan for a plain file upload (fileController.js lines
211-218). -/
def stepPlanWithoutText : List Step :=
  [ { name := fileValidationName, status := StepStatus.pending }
  , { name := ocrProcessingName, status := StepStatus.pending }
  , { name := textExtractionName, status := StepStatus.pending }
  , { name := entityExtractionName, status := StepStatus.pending }
  , { name := summarizationName, status := StepStatus.pending }
  , { name := qualityCheckName, status := StepStatus.pending } ]

/-- Result of one pass through the upload flow: the HTTP response,
the new collections, and whether the physical upload written by
multer was unlinked again. -/
structure UploadResult where
  response : UploadResponse
  files : List FileRec
  jobs : List Job
  uploadDiscarded : Bool
deriving Repr

/-- The File document as it stands after creation (status uploaded,
fileController.js lines 172-199) followed by the job linkage and the
flip to processing (lines 250-252). -/
def newFileDoc (userId : Nat) (checksum : String) (extractedText : Option String)
    (newFileId : Nat) (newJobId : String) : FileRec :=
  { id := newFileId
    userId := userId
    checksum := checksum
    status := FileStatus.processing
    extractedText := extractedText
    processingJob := some newJobId }

/-- The ProcessingJob created at upload (fileController.js lines
202-247): queued, with the text-dependent step plan, queuedAt
stamped. -/
def newProcessingJob (newJobId : String) (extractedText : Option String)
    (now : Nat) : Job :=
  { jobId := newJobId
    status := JobStatus.queued
    processingSteps :=
      if extractedText.isSome then stepPlanWithText else stepPlanWithoutText
    performance := { queuedAt := some now }
    createdAt := now }

/-- uploadFile from the checksum dedup check onward
(fileController.js lines 151-374).  On a duplicate: unlink the fresh
upload and answer 409 DUPLICATE_FILE.  Otherwise create the File,
create the ProcessingJob in queued with the text-dependent step plan,
link the job and flip the file to processing (lines 250-252), run the
dispatch try/catch, and answer 202 whose data.status reads
processingJob.status after that try/catch. -/
def uploadFile (files : List FileRec) (jobs : List Job)
    (userId : Nat) (checksum : String) (extractedText : Option String)
    (newFileId : Nat) (newJobId : String) (outcome : DispatchOutcome)
    (now : Nat) : UploadResult :=
  match findDuplicate files userId checksum with
  | some existingFile =>
    { response := UploadResponse.duplicateFile existingFile.id
      files := files
      jobs := jobs
      uploadDiscarded := true }
  | none =>
    { response := UploadResponse.accepted
        (applyDispatchOutcome (newProcessingJob newJobId extractedText now)
          (newFileDoc userId checksum extractedText newFileId newJobId) outcome now).1.status
      files := files ++
        [(applyDispatchOutcome (newProcessingJob newJobId extractedText now)
          (newFileDoc userId checksum extractedText newFileId newJobId) outcome now).2]
      jobs := jobs ++
        [(applyDispatchOutcome (newProcessingJob newJobId extractedText now)
          (newFileDoc userId checksum extractedText newFileId newJobId) outcome now).1]
      uploadDiscarded := false }

/- ===== AuditLog ledger (models/AuditLog.js) ===== -/

def auditImmutableMessage : String := "Audit logs cannot be modified"

/-- An audit ledger entry, reduced to the fields the lifecycle claims
read: identity, the action/success pair and the retention policy. -/
structure AuditEntry where
  id : Nat
  action : String
  success : Bool
  retentionDeleteAfter : Nat
  isProtected : Bool := false
deriving DecidableEq, Repr

/-- The write operations the mongoose model of the ledger exposes.
The schema installs pre hooks on save (rejecting non-new documents),
findOneAndUpdate, updateOne and updateMany (AuditLog.js lines
293-310); it installs no hook on the delete operations. -/
inductive LedgerOp
  | save (entry : AuditEntry) (isNew : Bool)
  | findOneAndUpdate (filter : AuditEntry → Bool) (update : AuditEntry → AuditEntry)
  | updateOne (filter : AuditEntry → Bool) (update : AuditEntry → AuditEntry)
  | updateMany (filter : AuditEntry → Bool) (update : AuditEntry → AuditEntry)
  | deleteOne (filter : AuditEntry → Bool)
  | deleteMany (filter : AuditEntry → Bool)

/-- Remove the first entry matched by the filter (mongoose
deleteOne). -/
def removeFirst (p : AuditEntry → Bool) : List AuditEntry → List AuditEntry
  | [] => []
  | e :: rest => if p e then rest else e :: removeFirst p rest

/-- Dispatch of a write operation against the ledger.  Every
intercepted path throws "Audit logs cannot be modified" and leaves
the collection untouched; save of a new document appends; the
non-intercepted delete operations run mongoose's default behaviour
and remove matching entries. -/
def applyLedgerOp (ledger : List AuditEntry) : LedgerOp → Except String (List AuditEntry)
  | LedgerOp.save e true => Except.ok (ledger ++ [e])
  | LedgerOp.save _ false => Except.error auditImmutableMessage
  | LedgerOp.findOneAndUpdate _ _ => Except.error auditImmutableMessage
  | LedgerOp.updateOne _ _ => Except.error auditImmutableMessage
  | LedgerOp.updateMany _ _ => Except.error auditImmutableMessage
  | LedgerOp.deleteOne p => Except.ok (removeFirst p ledger)
  | LedgerOp.deleteMany p => Except.ok (ledger.filter fun e => ! p e)

/-- An operation is an update attempt on existing entries: a save of
an already-persisted document or one of the three query updates. -/
def LedgerOp.isUpdateAttempt : LedgerOp → Prop
  | LedgerOp.save _ isNew => isNew = false
  | LedgerOp.findOneAndUpdate _ _ => True
  | LedgerOp.updateOne _ _ => True
  | LedgerOp.updateMany _ _ => True
  | LedgerOp.deleteOne _ => False
  | LedgerOp.deleteMany _ => False

/- ===== Helper lemmas ===== -/

theorem stepWeight_pos (name : String) : 0 < stepWeight name := by
  unfold stepWeight
  repeat' split
  all_goals norm_num

theorem totalWeight_pos (steps : List Step) (h : steps ≠ []) :
    0 < totalWeight steps := by
  unfold totalWeight
  apply List.sum_pos
  · intro x hx
    obtain ⟨s, _, rfl⟩ := List.mem_map.mp hx
    exact_mod_cast stepWeight_pos s.name
  · simpa using h

theorem updateFirstStep_ne_nil (name : String) (f : Step → Step)
    (l : List Step) (h : l ≠ []) : updateFirstStep name f l ≠ [] := by
  cases l with
  | nil => exact absurd rfl h
  | cons s rest =>
    unfold updateFirstStep
    split <;> simp

theorem updateProgress_processingSteps (j : Job) :
    (updateProgress j).processingSteps = j.processingSteps := by
  unfold updateProgress
  split <;> rfl

theorem updateStep_processingSteps (j : Job) (stepName : String) (st : StepStatus)
    (de : Option String) (now : Nat) :
    (updateStep j stepName st de now).processingSteps =
      updateFirstStep stepName (fun s => applyStepUpdate s st de now) j.processingSteps := by
  show (updateProgress _).processingSteps = _
  rw [updateProgress_processingSteps]

theorem updateProgress_progress (j : Job) (h : j.processingSteps ≠ []) :
    (updateProgress j).progress =
      jsRound (100 * completedWeight j.processingSteps / totalWeight j.processingSteps) := by
  unfold updateProgress
  rw [if_neg h]
  have htw : 0 < totalWeight j.processingSteps := totalWeight_pos _ h
  simp only [if_pos htw]
  congr 1
  ring

/- ===== Demo documents used by witnesses and counterexamples ===== -/

/-- Job used for the C4 weighted-progress scenario: validation weight
5 completed, extraction (the weight-30 OCR stage) about to start,
summarization weight 15 pending. -/
def c4ScenarioJob : Job :=
  { jobId := "job-c4"
    status := JobStatus.processing
    processingSteps :=
      [ { name := fileValidationName, status := StepStatus.completed }
      , { name := ocrProcessingName, status := StepStatus.pending }
      , { name := summarizationName, status := StepStatus.pending } ] }

/- ===== Claim theorems ===== -/

/-- Claim C4: for every job with a non-empty step list, updateStep
recomputes the aggregate progress as
round(100 * sum(weight * stepCredit) / sum(weight)), a completed
step contributing its full weight, a processing step half, all other
statuses zero; and the validation(5)/extraction(30)/summarization(15)
scenario with validation completed and extraction processing yields
progress 40. -/
theorem progress_is_weighted_round :
    (∀ (j : Job) (stepName : String) (st : StepStatus) (de : Option String) (now : Nat),
        j.processingSteps ≠ [] →
        (updateStep j stepName st de now).progress =
          jsRound (100 *
            completedWeight (updateStep j stepName st de now).processingSteps /
            totalWeight (updateStep j stepName st de now).processingSteps)) ∧
    (updateStep c4ScenarioJob ocrProcessingName StepStatus.processing none 0).progress = 40 := by
  constructor
  · intro j stepName st de now h
    have h2 : updateFirstStep stepName
        (fun s => applyStepUpdate s st de now) j.processingSteps ≠ [] :=
      updateFirstStep_ne_nil _ _ _ h
    rw [updateStep_processingSteps]
    show (updateProgress _).progress = _
    rw [updateProgress_progress _ h2]
  · simp [updateStep, updateProgress, c4ScenarioJob, updateFirstStep, applyStepUpdate,
      totalWeight, completedWeight, stepWeight, stepCredit, fileValidationName,
      ocrProcessingName, summarizationName, textExtractionName, entityExtractionName,
      qualityCheckName]
    norm_num [jsRound]

theorem progress_is_weighted_round_witness :
    c4ScenarioJob.processingSteps ≠ [] ∧
    (updateStep c4ScenarioJob ocrProcessingName StepStatus.processing none 0).progress =
      jsRound (100 *
        completedWeight
          (updateStep c4ScenarioJob ocrProcessingName StepStatus.processing
            none 0).processingSteps /
        totalWeight
          (updateStep c4ScenarioJob ocrProcessingName StepStatus.processing
            none 0).processingSteps) :=
  ⟨by decide,
    progress_is_weighted_round.1 c4ScenarioJob ocrProcessingName StepStatus.processing
      none 0 (by decide)⟩

/-- Non-terminal job whose weighted progress (40) and unweighted
completionPercentage (33) disagree. -/
def c10StatusJob : Job :=
  { jobId := "job-c10"
    status := JobStatus.processing
    progress := 40
    processingSteps :=
      [ { name := fileValidationName, status := StepStatus.completed }
      , { name := ocrProcessingName, status := StepStatus.processing }
      , { name := summarizationName, status := StepStatus.pending } ] }

def c10CompletedJob : Job :=
  { jobId := "job-c10a", status := JobStatus.completed }

def c10CancelledJob : Job :=
  { jobId := "job-c10b", status := JobStatus.cancelled }

/-- Claim C10: completionPercentage is 100 for a completed job, 0 for
a failed or cancelled job, and otherwise (for a job with at least one
step; with none the code falls back to the stored progress) the
unweighted round(100 * completedSteps / totalSteps); on the concrete
non-terminal demo job the status endpoint returns the weighted
progress 40 next to completionPercentage 33, so the two differ. -/
theorem completionPercentage_unweighted :
    (∀ j : Job, j.status = JobStatus.completed → completionPercentage j = 100) ∧
    (∀ j : Job, j.status = JobStatus.failed ∨ j.status = JobStatus.cancelled →
      completionPercentage j = 0) ∧
    (∀ j : Job, j.status ≠ JobStatus.completed → j.status ≠ JobStatus.failed →
      j.status ≠ JobStatus.cancelled → j.processingSteps ≠ [] →
      completionPercentage j =
        jsRound (100 *
          ((j.processingSteps.filter fun s => s.status = StepStatus.completed).length : ℚ) /
          (j.processingSteps.length : ℚ))) ∧
    (c10StatusJob.status = JobStatus.processing ∧
      getFileStatusProcessing c10StatusJob = (40, 33) ∧ (40 : ℤ) ≠ 33) := by
  refine ⟨?_, ?_, ?_, ?_⟩
  · intro j h
    simp [completionPercentage, h]
  · intro j h
    rcases h with h | h <;> simp [completionPercentage, h]
  · intro j h1 h2 h3 h4
    unfold completionPercentage
    rw [if_neg h1, if_neg (by tauto)]
    have hl : 0 < j.processingSteps.length := List.length_pos.mpr h4
    simp only [if_pos hl]
    congr 1
    ring
  · refine ⟨by decide, ?_, by decide⟩
    simp [getFileStatusProcessing, completionPercentage, c10StatusJob, fileValidationName,
      ocrProcessingName, summarizationName]
    norm_num [jsRound]

theorem completionPercentage_unweighted_witness :
    (c10CompletedJob.status = JobStatus.completed ∧
      completionPercentage c10CompletedJob = 100) ∧
    ((c10CancelledJob.status = JobStatus.failed ∨
        c10CancelledJob.status = JobStatus.cancelled) ∧
      completionPercentage c10CancelledJob = 0) ∧
    (c10StatusJob.status ≠ JobStatus.completed ∧
      c10StatusJob.status ≠ JobStatus.failed ∧
      c10StatusJob.status ≠ JobStatus.cancelled ∧
      c10StatusJob.processingSteps ≠ [] ∧
      completionPercentage c10StatusJob =
        jsRound (100 *
          ((c10StatusJob.processingSteps.filter
              fun s => s.status = StepStatus.completed).length : ℚ) /
          (c10StatusJob.processingSteps.length : ℚ))) :=
  ⟨⟨by decide, completionPercentage_unweighted.1 c10CompletedJob (by decide)⟩,
    ⟨Or.inr (by decide), completionPercentage_unweighted.2.1 c10CancelledJob (Or.inr (by decide))⟩,
    by decide, by decide, by decide, by decide,
    completionPercentage_unweighted.2.2.1 c10StatusJob (by decide) (by decide) (by decide)
      (by decide)⟩

def demoResults : String := "results-blob"

def demoMessage : String := "worker crashed"

/-- Job resting in the terminal cancelled state. -/
def c3CancelledJob : Job :=
  { jobId := "job-c3", status := JobStatus.cancelled }

/-- Claim C3 counterexample: markCompleted carries no transition
guard.  Applied to a job already in the terminal state cancelled it
does not fail with InvalidTransition: it silently overwrites the
terminal state with completed, and markFailed likewise overwrites an
already-completed job with failed. -/
theorem markCompleted_overwrites_terminal_counterexample :
    c3CancelledJob.status = JobStatus.cancelled ∧
    (markCompleted c3CancelledJob demoResults 5).status = JobStatus.completed ∧
    (markFailed { c3CancelledJob with status := JobStatus.completed }
        { message := demoMessage } false 6).status = JobStatus.failed := by
  decide

/-- Claim C3 (amended): the job state machine is last-writer-wins:
markCompleted sets status completed from every prior state including
the terminal ones, and a non-retryable markFailed sets status failed
from every prior state; no InvalidTransition rejection exists
anywhere in either method. -/
theorem mark_operations_have_no_guard :
    (∀ (j : Job) (r : String) (now : Nat),
        (markCompleted j r now).status = JobStatus.completed) ∧
    (∀ (j : Job) (e : JsError) (now : Nat),
        (markFailed j e false now).status = JobStatus.failed) := by
  constructor
  · intro j r now
    rfl
  · intro j e now
    simp [markFailed]

/-- Job with a completed validation step and a failed OCR step, first
failure (stored retry counter 0). -/
def c5RetryJob : Job :=
  { jobId := "job-c5"
    status := JobStatus.processing
    progress := 24
    processingSteps :=
      [ { name := fileValidationName, status := StepStatus.completed }
      , { name := ocrProcessingName, status := StepStatus.failed } ] }

def demoFailure : JsError := { message := demoMessage }

/-- Claim C5 counterexample: a retryable failure with the stored
counter 0, strictly below the cap of 3, does not requeue the job: the
errorDetails rebuild omits maxRetries, the guard
`retryCount < maxRetries` reads undefined and fails, so the job stays
failed with the counter still 0, the failed OCR step still failed and
the progress still 24 — not the queued/incremented/reset/zeroed state
the claim requires. -/
theorem markFailed_retry_never_requeues_counterexample :
    currentRetryCount c5RetryJob = 0 ∧
    currentRetryCount c5RetryJob < defaultMaxRetries ∧
    (markFailed c5RetryJob demoFailure true 9).status = JobStatus.failed ∧
    JobStatus.failed ≠ JobStatus.queued ∧
    currentRetryCount (markFailed c5RetryJob demoFailure true 9) = 0 ∧
    (markFailed c5RetryJob demoFailure true 9).processingSteps =
      c5RetryJob.processingSteps ∧
    (markFailed c5RetryJob demoFailure true 9).progress = c5RetryJob.progress ∧
    (markFailed c5RetryJob demoFailure true 9).progress = 24 := by
  decide

/-- Claim C5 (amended): failing a job with retryable=true — even with
the retry counter strictly below the cap — never resets the job to
queued, never increments the counter, never resets any step and never
touches progress: the rebuilt errorDetails omits maxRetries, so the
in-line guard `retryCount < maxRetries` compares against undefined
and is always false, leaving the documented requeue branch dead; the
operation always produces the terminally failed job with the rebuilt
errorDetails (counter carried over unchanged). -/
theorem markFailed_never_requeues :
    ∀ (j : Job) (e : JsError) (retryable : Bool) (now : Nat),
      markFailed j e retryable now =
        { j with
          status := JobStatus.failed
          errorDetails := some (rebuiltErrorDetails j e now) } ∧
      (markFailed j e retryable now).status = JobStatus.failed ∧
      currentRetryCount (markFailed j e retryable now) = currentRetryCount j ∧
      (markFailed j e retryable now).processingSteps = j.processingSteps ∧
      (markFailed j e retryable now).progress = j.progress := by
  intro j e retryable now
  have hguard : (retryable && jsLt (rebuiltErrorDetails j e now).retryCount
      (rebuiltErrorDetails j e now).maxRetries) = false := by
    simp [jsLt, rebuiltErrorDetails]
  have heq : markFailed j e retryable now =
      { j with
        status := JobStatus.failed
        errorDetails := some (rebuiltErrorDetails j e now) } := by
    unfold markFailed
    rw [hguard]
    rfl
  exact ⟨heq, by rw [heq], by rw [heq]; rfl, by rw [heq], by rw [heq]⟩

/-- Helper: a single markFailed call leaves the stored retry counter
exactly as it was. -/
theorem markFailed_retryCount_eq (j : Job) (e : JsError) (r : Bool) (t : Nat) :
    currentRetryCount (markFailed j e r t) = currentRetryCount j := by
  have hguard : (r && jsLt (rebuiltErrorDetails j e t).retryCount
      (rebuiltErrorDetails j e t).maxRetries) = false := by
    simp [jsLt, rebuiltErrorDetails]
  unfold markFailed
  rw [hguard]
  rfl

/-- Job whose stored retry counter already sits at the cap (as a
hydrated document would carry it, with the schema-default cap). -/
def c6CapJob : Job :=
  { jobId := "job-c6"
    status := JobStatus.processing
    errorDetails := some
      { code := processingErrorCode
        message := demoMessage
        timestamp := 0
        retryCount := 3
        maxRetries := some defaultMaxRetries } }

def c6Ops : List (JsError × Bool × Nat) :=
  [(demoFailure, true, 1), (demoFailure, false, 2), (demoFailure, true, 3)]

/-- Claim C6: across any sequence of markFailed calls the stored
retry counter never changes at all — a fortiori it never exceeds the
cap it started at or below — and a retryable failure arriving with
the counter at the cap leaves the job in failed with the counter
unchanged, with no transition back to queued.  The guarantee is
established inside markFailed itself for arbitrary retryable
arguments from any caller, but degenerately: the rebuilt errorDetails
omits maxRetries, so the guard `retryCount < maxRetries` compares
against undefined and never passes — no markFailed call ever
increments the counter or requeues. -/
theorem markFailed_retry_cap :
    (∀ (j : Job) (ops : List (JsError × Bool × Nat)),
        currentRetryCount (markFailedSeq j ops) = currentRetryCount j) ∧
    (∀ (j : Job) (ops : List (JsError × Bool × Nat)),
        currentRetryCount j ≤ defaultMaxRetries →
        currentRetryCount (markFailedSeq j ops) ≤ defaultMaxRetries) ∧
    (∀ (j : Job) (e : JsError) (now : Nat),
        currentRetryCount j = defaultMaxRetries →
        (markFailed j e true now).status = JobStatus.failed ∧
        currentRetryCount (markFailed j e true now) = currentRetryCount j) := by
  have hseq : ∀ (ops : List (JsError × Bool × Nat)) (j : Job),
      currentRetryCount (markFailedSeq j ops) = currentRetryCount j := by
    intro ops
    induction ops with
    | nil => intro j; rfl
    | cons op rest ih =>
      intro j
      show currentRetryCount (markFailedSeq (markFailed j op.1 op.2.1 op.2.2) rest) = _
      rw [ih (markFailed j op.1 op.2.1 op.2.2)]
      exact markFailed_retryCount_eq j op.1 op.2.1 op.2.2
  refine ⟨fun j ops => hseq ops j, ?_, ?_⟩
  · intro j ops h
    rw [hseq ops j]
    exact h
  · intro j e now hcap
    have hguard : (true && jsLt (rebuiltErrorDetails j e now).retryCount
        (rebuiltErrorDetails j e now).maxRetries) = false := by
      simp [jsLt, rebuiltErrorDetails]
    constructor
    · unfold markFailed
      rw [hguard]
      rfl
    · exact markFailed_retryCount_eq j e true now

theorem markFailed_retry_cap_witness :
    currentRetryCount (markFailedSeq c6CapJob c6Ops) = currentRetryCount c6CapJob ∧
    currentRetryCount c6CapJob ≤ defaultMaxRetries ∧
    currentRetryCount (markFailedSeq c6CapJob c6Ops) ≤ defaultMaxRetries ∧
    currentRetryCount c6CapJob = defaultMaxRetries ∧
    (markFailed c6CapJob demoFailure true 2).status = JobStatus.failed ∧
    currentRetryCount (markFailed c6CapJob demoFailure true 2) =
      currentRetryCount c6CapJob :=
  ⟨markFailed_retry_cap.1 c6CapJob c6Ops, by decide,
    markFailed_retry_cap.2.1 c6CapJob c6Ops (by decide), by decide,
    (markFailed_retry_cap.2.2 c6CapJob demoFailure 2 (by decide)).1,
    (markFailed_retry_cap.2.2 c6CapJob demoFailure 2 (by decide)).2⟩

/- ===== Hex and signature lemmas ===== -/

theorem hexVal_hexDigitChar : ∀ n < 16, hexVal (hexDigitChar n) = some n := by
  decide

theorem hexDecode_hexEncode (bs : List Nat) (h : ValidBytes bs) :
    hexDecode (hexEncode bs) = bs := by
  induction bs with
  | nil => rfl
  | cons b rest ih =>
    have hb : b < 256 := h b (List.mem_cons_self _ _)
    have hrest : ValidBytes rest := fun x hx => h x (List.mem_cons_of_mem _ hx)
    have h1 : hexVal (hexDigitChar (b / 16)) = some (b / 16) :=
      hexVal_hexDigitChar _ (by omega)
    have h2 : hexVal (hexDigitChar (b % 16)) = some (b % 16) :=
      hexVal_hexDigitChar _ (by omega)
    have henc : hexEncode (b :: rest) =
        hexDigitChar (b / 16) :: hexDigitChar (b % 16) :: hexEncode rest := by
      simp [hexEncode, byteToHex]
    rw [henc]
    rw [hexDecode]
    rw [h1, h2]
    simp only [List.cons.injEq]
    exact ⟨by omega, ih hrest⟩

/-- Hex decoding inverts the hex encoding of the recomputed digest. -/
theorem hexDecode_generateHMACSignature (hmac : List Nat → List Nat → List Nat)
    (payload secret : List Nat) (h : ValidBytes (hmac secret payload)) :
    hexDecode (generateHMACSignature hmac payload secret) = hmac secret payload :=
  hexDecode_hexEncode _ h

/-- Verifier characterisation: once the recomputed digest is a true
byte sequence, verifyHMACSignature reduces to the length-guarded
constant-time comparison of the hex-decoded provided signature
against that digest. -/
theorem verifyHMACSignature_spec (hmac : List Nat → List Nat → List Nat)
    (payload : List Nat) (sig : List Char) (secret : List Nat)
    (h : ValidBytes (hmac secret payload)) :
    verifyHMACSignature hmac payload sig secret =
      if (hexDecode sig).length = (hmac secret payload).length then
        Except.ok (hexDecode sig == hmac secret payload)
      else Except.error timingSafeEqualError := by
  simp only [verifyHMACSignature, timingSafeEqual]
  rw [hexDecode_generateHMACSignature _ _ _ h]

theorem aiCallback_fst_of_verify_true (hmac : List Nat → List Nat → List Nat)
    (payload : CallbackPayload) (payloadBytes : List Nat) (sig : List Char)
    (secret : List Nat) (jobs : List Job) (now : Nat)
    (h : verifyHMACSignature hmac payloadBytes sig secret = Except.ok true) :
    (aiCallback hmac payload payloadBytes sig secret jobs now).1 ≠
        CallbackHttp.invalidSignature ∧
      (aiCallback hmac payload payloadBytes sig secret jobs now).1 ≠
        CallbackHttp.callbackError := by
  unfold aiCallback
  rw [h]
  cases findJob jobs payload.jobId <;> simp

theorem aiCallback_fst_of_verify_false (hmac : List Nat → List Nat → List Nat)
    (payload : CallbackPayload) (payloadBytes : List Nat) (sig : List Char)
    (secret : List Nat) (jobs : List Job) (now : Nat)
    (h : verifyHMACSignature hmac payloadBytes sig secret = Except.ok false) :
    (aiCallback hmac payload payloadBytes sig secret jobs now).1 =
      CallbackHttp.invalidSignature := by
  unfold aiCallback
  rw [h]

theorem aiCallback_fst_of_verify_error (hmac : List Nat → List Nat → List Nat)
    (payload : CallbackPayload) (payloadBytes : List Nat) (sig : List Char)
    (secret : List Nat) (jobs : List Job) (now : Nat) (msg : String)
    (h : verifyHMACSignature hmac payloadBytes sig secret = Except.error msg) :
    (aiCallback hmac payload payloadBytes sig secret jobs now).1 =
      CallbackHttp.callbackError := by
  unfold aiCallback
  rw [h]

/-- Concrete stand-in for the HMAC-SHA256 primitive in witnesses: a
one-byte keyed checksum. -/
def demoHmac : List Nat → List Nat → List Nat :=
  fun secret msg => [(secret.sum + msg.sum) % 256]

def c1Payload : CallbackPayload := { jobId := "job-c1" }

/-- Claim C1 counterexample: with the malformed signature header "z",
verification does not fail closed with the 403 INVALID_SIGNATURE
response the claim requires.  Buffer.from("z", "hex") decodes to an
empty buffer, crypto.timingSafeEqual throws a RangeError on the
length mismatch, and the route catch answers 500 CALLBACK_ERROR. -/
theorem callback_malformed_signature_counterexample :
    (aiCallback demoHmac c1Payload [1, 2, 3] ['z'] [5] [] 0).1 =
        CallbackHttp.callbackError ∧
      CallbackHttp.callbackError ≠ CallbackHttp.invalidSignature := by
  decide

/-- Claim C1 (amended): the callback handler recomputes an
HMAC-SHA256 (over the JSON serialization of the payload, the byte
argument here) with the shared secret and compares it against the
hex-decoded provided signature in constant time.  A signature
produced with the same secret over the same bytes is accepted; a
provided signature decoding to the right length but different bytes —
in particular one made with any other secret, or over mutated payload
bytes, whose digest differs — is rejected with 403 INVALID_SIGNATURE;
but a signature whose hex decoding has the wrong length (malformed
encoding included) makes the comparison throw and the handler answers
500 CALLBACK_ERROR instead of 403. -/
theorem callback_signature_verification :
    (∀ (hmac : List Nat → List Nat → List Nat) (payload : CallbackPayload)
        (payloadBytes secret : List Nat) (jobs : List Job) (now : Nat),
        ValidBytes (hmac secret payloadBytes) →
        (aiCallback hmac payload payloadBytes
              (generateHMACSignature hmac payloadBytes secret) secret jobs now).1 ≠
            CallbackHttp.invalidSignature ∧
          (aiCallback hmac payload payloadBytes
              (generateHMACSignature hmac payloadBytes secret) secret jobs now).1 ≠
            CallbackHttp.callbackError) ∧
    (∀ (hmac : List Nat → List Nat → List Nat) (payload : CallbackPayload)
        (payloadBytes : List Nat) (sig : List Char) (secret : List Nat)
        (jobs : List Job) (now : Nat),
        ValidBytes (hmac secret payloadBytes) →
        (hexDecode sig).length = (hmac secret payloadBytes).length →
        hexDecode sig ≠ hmac secret payloadBytes →
        (aiCallback hmac payload payloadBytes sig secret jobs now).1 =
          CallbackHttp.invalidSignature) ∧
    (∀ (hmac : List Nat → List Nat → List Nat) (payload : CallbackPayload)
        (payloadBytes secret secret2 : List Nat) (jobs : List Job) (now : Nat),
        ValidBytes (hmac secret payloadBytes) →
        ValidBytes (hmac secret2 payloadBytes) →
        (hmac secret2 payloadBytes).length = (hmac secret payloadBytes).length →
        hmac secret2 payloadBytes ≠ hmac secret payloadBytes →
        (aiCallback hmac payload payloadBytes
            (generateHMACSignature hmac payloadBytes secret2) secret jobs now).1 =
          CallbackHttp.invalidSignature) ∧
    (∀ (hmac : List Nat → List Nat → List Nat) (payload : CallbackPayload)
        (payloadBytes payloadBytes2 secret : List Nat) (jobs : List Job) (now : Nat),
        ValidBytes (hmac secret payloadBytes) →
        ValidBytes (hmac secret payloadBytes2) →
        (hmac secret payloadBytes2).length = (hmac secret payloadBytes).length →
        hmac secret payloadBytes2 ≠ hmac secret payloadBytes →
        (aiCallback hmac payload payloadBytes
            (generateHMACSignature hmac payloadBytes2 secret) secret jobs now).1 =
          CallbackHttp.invalidSignature) ∧
    (∀ (hmac : List Nat → List Nat → List Nat) (payload : CallbackPayload)
        (payloadBytes : List Nat) (sig : List Char) (secret : List Nat)
        (jobs : List Job) (now : Nat),
        ValidBytes (hmac secret payloadBytes) →
        (hexDecode sig).length ≠ (hmac secret payloadBytes).length →
        (aiCallback hmac payload payloadBytes sig secret jobs now).1 =
          CallbackHttp.callbackError) := by
  have hver_true : ∀ (hmac : List Nat → List Nat → List Nat)
      (payloadBytes secret : List Nat), ValidBytes (hmac secret payloadBytes) →
      verifyHMACSignature hmac payloadBytes
          (generateHMACSignature hmac payloadBytes secret) secret = Except.ok true := by
    intro hmac payloadBytes secret h
    rw [verifyHMACSignature_spec _ _ _ _ h]
    rw [hexDecode_generateHMACSignature _ _ _ h]
    simp
  have hver_false : ∀ (hmac : List Nat → List Nat → List Nat)
      (payloadBytes : List Nat) (sig : List Char) (secret : List Nat),
      ValidBytes (hmac secret payloadBytes) →
      (hexDecode sig).length = (hmac secret payloadBytes).length →
      hexDecode sig ≠ hmac secret payloadBytes →
      verifyHMACSignature hmac payloadBytes sig secret = Except.ok false := by
    intro hmac payloadBytes sig secret h hlen hne
    rw [verifyHMACSignature_spec _ _ _ _ h]
    rw [if_pos hlen]
    simp [hne]
  refine ⟨?_, ?_, ?_, ?_, ?_⟩
  · intro hmac payload payloadBytes secret jobs now h
    exact aiCallback_fst_of_verify_true _ _ _ _ _ _ _ (hver_true hmac payloadBytes secret h)
  · intro hmac payload payloadBytes sig secret jobs now h hlen hne
    exact aiCallback_fst_of_verify_false _ _ _ _ _ _ _
      (hver_false hmac payloadBytes sig secret h hlen hne)
  · intro hmac payload payloadBytes secret secret2 jobs now h h2 hlen hne
    refine aiCallback_fst_of_verify_false _ _ _ _ _ _ _
      (hver_false hmac payloadBytes _ secret h ?_ ?_)
    · rw [hexDecode_generateHMACSignature _ _ _ h2]
      exact hlen
    · rw [hexDecode_generateHMACSignature _ _ _ h2]
      exact hne
  · intro hmac payload payloadBytes payloadBytes2 secret jobs now h h2 hlen hne
    refine aiCallback_fst_of_verify_false _ _ _ _ _ _ _
      (hver_false hmac payloadBytes _ secret h ?_ ?_)
    · rw [hexDecode_generateHMACSignature _ _ _ h2]
      exact hlen
    · rw [hexDecode_generateHMACSignature _ _ _ h2]
      exact hne
  · intro hmac payload payloadBytes sig secret jobs now h hlen
    refine aiCallback_fst_of_verify_error _ _ _ _ _ _ _ timingSafeEqualError ?_
    rw [verifyHMACSignature_spec _ _ _ _ h]
    rw [if_neg hlen]

theorem callback_signature_verification_witness :
    (ValidBytes (demoHmac [5] [1, 2, 3]) ∧
      (aiCallback demoHmac c1Payload [1, 2, 3]
            (generateHMACSignature demoHmac [1, 2, 3] [5]) [5] [] 0).1 ≠
          CallbackHttp.invalidSignature ∧
        (aiCallback demoHmac c1Payload [1, 2, 3]
            (generateHMACSignature demoHmac [1, 2, 3] [5]) [5] [] 0).1 ≠
          CallbackHttp.callbackError) ∧
    ((hexDecode ['f', 'f']).length = (demoHmac [5] [1, 2, 3]).length ∧
      hexDecode ['f', 'f'] ≠ demoHmac [5] [1, 2, 3] ∧
      (aiCallback demoHmac c1Payload [1, 2, 3] ['f', 'f'] [5] [] 0).1 =
        CallbackHttp.invalidSignature) ∧
    (demoHmac [6] [1, 2, 3] ≠ demoHmac [5] [1, 2, 3] ∧
      (aiCallback demoHmac c1Payload [1, 2, 3]
          (generateHMACSignature demoHmac [1, 2, 3] [6]) [5] [] 0).1 =
        CallbackHttp.invalidSignature) ∧
    (demoHmac [5] [1, 2, 4] ≠ demoHmac [5] [1, 2, 3] ∧
      (aiCallback demoHmac c1Payload [1, 2, 3]
          (generateHMACSignature demoHmac [1, 2, 4] [5]) [5] [] 0).1 =
        CallbackHttp.invalidSignature) ∧
    ((hexDecode ['z']).length ≠ (demoHmac [5] [1, 2, 3]).length ∧
      (aiCallback demoHmac c1Payload [1, 2, 3] ['z'] [5] [] 0).1 =
        CallbackHttp.callbackError) :=
  ⟨⟨by decide,
      callback_signature_verification.1 demoHmac c1Payload [1, 2, 3] [5] [] 0 (by decide)⟩,
    ⟨by decide, by decide,
      callback_signature_verification.2.1 demoHmac c1Payload [1, 2, 3]
        ['f', 'f'] [5] [] 0 (by decide) (by decide) (by decide)⟩,
    ⟨by decide,
      callback_signature_verification.2.2.1 demoHmac c1Payload [1, 2, 3] [5] [6] [] 0
        (by decide) (by decide) (by decide) (by decide)⟩,
    ⟨by decide,
      callback_signature_verification.2.2.2.1 demoHmac c1Payload [1, 2, 3] [1, 2, 4] [5]
        [] 0 (by decide) (by decide) (by decide) (by decide)⟩,
    ⟨by decide,
      callback_signature_verification.2.2.2.2 demoHmac c1Payload [1, 2, 3] ['z'] [5]
        [] 0 (by decide) (by decide)⟩⟩

/- ===== Claim C2: duplicate callback on a completed job ===== -/

/-- Job already completed by a first callback at time 5. -/
def c2CompletedJob : Job :=
  { jobId := "job-c2"
    status := JobStatus.completed
    progress := 100
    results := some demoResults
    performance :=
      { queuedAt := some 1
        startedAt := some 2
        completedAt := some 5
        totalDuration := some 5
        processingDuration := some 3 }
    createdAt := 0 }

/-- The same completion callback delivered again. -/
def c2Payload : CallbackPayload :=
  { jobId := "job-c2", status := some completedString, results := some demoResults }

/-- Claim C2 counterexample: redelivering the identical valid
completion callback at time 9 to the job completed at time 5 is
accepted, but it re-runs markCompleted and overwrites
performance.completedAt (5 becomes 9) and the derived durations, so
the completion timestamps are not unchanged by the second
application. -/
theorem duplicate_callback_changes_timestamps_counterexample :
    c2CompletedJob.status = JobStatus.completed ∧
    c2CompletedJob.performance.completedAt = some 5 ∧
    (aiCallback demoHmac c2Payload [1, 2, 3]
        (generateHMACSignature demoHmac [1, 2, 3] [5]) [5] [c2CompletedJob] 9).1 =
      CallbackHttp.accepted ∧
    ((aiCallback demoHmac c2Payload [1, 2, 3]
          (generateHMACSignature demoHmac [1, 2, 3] [5]) [5] [c2CompletedJob] 9).2.map
        fun j => j.performance.completedAt) = [some 9] ∧
    some (9 : Nat) ≠ some 5 := by
  decide

/-- Claim C2 (amended): a duplicate valid completion callback for an
already-completed job is accepted without error and leaves status,
results (for the identical payload) and progress unchanged, but it
re-runs markCompleted, which overwrites performance.completedAt (and
the derived durations) with the duplicate's arrival time. -/
theorem duplicate_callback_partial_idempotence :
    ∀ (hmac : List Nat → List Nat → List Nat) (payload : CallbackPayload)
      (payloadBytes : List Nat) (sig : List Char) (secret : List Nat)
      (jobs : List Job) (j : Job) (r : String) (now : Nat),
      verifyHMACSignature hmac payloadBytes sig secret = Except.ok true →
      findJob jobs payload.jobId = some j →
      payload.status = some completedString →
      payload.results = some r →
      j.status = JobStatus.completed →
      j.results = some r →
      j.progress = 100 →
      (aiCallback hmac payload payloadBytes sig secret jobs now).1 =
          CallbackHttp.accepted ∧
        (aiCallback hmac payload payloadBytes sig secret jobs now).2 =
          saveJob jobs (markCompleted j r now) ∧
        (markCompleted j r now).status = j.status ∧
        (markCompleted j r now).results = j.results ∧
        (markCompleted j r now).progress = j.progress ∧
        (markCompleted j r now).performance.completedAt = some now := by
  intro hmac payload payloadBytes sig secret jobs j r now hver hfind hst hres hjst hjres hjprog
  have hcall : aiCallback hmac payload payloadBytes sig secret jobs now =
      (CallbackHttp.accepted, saveJob jobs (markCompleted j r now)) := by
    unfold aiCallback
    rw [hver, hfind, hres, hst]
    simp
  obtain ⟨jid, jst, jpr, jsteps, jres, jed, jperf, jca⟩ := j
  obtain ⟨pq, psa, pca, ptd, ppd⟩ := jperf
  cases psa <;>
    refine ⟨by rw [hcall], by rw [hcall], ?_, ?_, ?_, ?_⟩ <;>
      simp_all [markCompleted]

theorem duplicate_callback_partial_idempotence_witness :
    verifyHMACSignature demoHmac [1, 2, 3]
        (generateHMACSignature demoHmac [1, 2, 3] [5]) [5] = Except.ok true ∧
    findJob [c2CompletedJob] c2Payload.jobId = some c2CompletedJob ∧
    ((aiCallback demoHmac c2Payload [1, 2, 3]
          (generateHMACSignature demoHmac [1, 2, 3] [5]) [5] [c2CompletedJob] 9).1 =
        CallbackHttp.accepted ∧
      (aiCallback demoHmac c2Payload [1, 2, 3]
          (generateHMACSignature demoHmac [1, 2, 3] [5]) [5] [c2CompletedJob] 9).2 =
        saveJob [c2CompletedJob] (markCompleted c2CompletedJob demoResults 9) ∧
      (markCompleted c2CompletedJob demoResults 9).status = c2CompletedJob.status ∧
      (markCompleted c2CompletedJob demoResults 9).results = c2CompletedJob.results ∧
      (markCompleted c2CompletedJob demoResults 9).progress = c2CompletedJob.progress ∧
      (markCompleted c2CompletedJob demoResults 9).performance.completedAt = some 9) :=
  ⟨rfl, by decide,
    duplicate_callback_partial_idempotence demoHmac c2Payload [1, 2, 3]
      (generateHMACSignature demoHmac [1, 2, 3] [5]) [5] [c2CompletedJob]
      c2CompletedJob demoResults 9 rfl (by decide) (by decide) (by decide)
      (by decide) (by decide) (by decide)⟩


/- ===== Claim C7: duplicate submission ===== -/

/-- find? skips a prefix in which nothing matches. -/
theorem find?_append_left_none {α : Type} (l1 l2 : List α) (p : α → Bool)
    (h : l1.find? p = none) : (l1 ++ l2).find? p = l2.find? p := by
  induction l1 with
  | nil => rfl
  | cons a rest ih =>
    rw [List.find?_cons] at h
    rw [List.cons_append, List.find?_cons]
    cases hp : p a with
    | true =>
      rw [hp] at h
      simp at h
    | false =>
      rw [hp] at h
      simp only [cond_false] at h ⊢
      exact ih h

def checksumX : String := "checksum-x"

/-- Soft-deleted file of owner 7 with checksum checksumX. -/
def deletedDuplicateFile : FileRec :=
  { id := 1, userId := 7, checksum := checksumX, status := FileStatus.deleted }

/-- Claim C7 counterexample: the duplicate check does not restrict
itself to non-deleted artifacts.  With the store holding only a
soft-deleted artifact of owner 7 with checksum checksumX — so that no
non-deleted artifact with that (checksum, owner) exists — a fresh
upload of the same content by the same owner is still rejected with
409 DUPLICATE_FILE (and the fresh physical upload unlinked). -/
theorem deleted_file_blocks_reupload_counterexample :
    (([deletedDuplicateFile] : List FileRec).filter
        fun f => f.userId = 7 ∧ f.checksum = checksumX ∧ f.status ≠ FileStatus.deleted) =
      [] ∧
    (uploadFile [deletedDuplicateFile] [] 7 checksumX none 2 demoResults
        DispatchOutcome.success 0).response = UploadResponse.duplicateFile 1 ∧
    (uploadFile [deletedDuplicateFile] [] 7 checksumX none 2 demoResults
        DispatchOutcome.success 0).uploadDiscarded = true := by
  decide

/-- Claim C7 (amended): submitting the same checksum for the same
owner twice in sequence (the first dispatch succeeding) yields 202
with a queued job, then 409 DUPLICATE_FILE with the upload discarded
and no state change; the duplicate check
File.findOne({checksum, userId}) matches every artifact of that
owner, soft-deleted ones included. -/
theorem duplicate_upload_rejected :
    ∀ (files : List FileRec) (jobs : List Job) (userId : Nat) (checksum : String)
      (text : Option String) (fid : Nat) (jid : String) (now : Nat)
      (r1 : UploadResult),
      findDuplicate files userId checksum = none →
      r1 = uploadFile files jobs userId checksum text fid jid
          DispatchOutcome.success now →
      ∀ (text2 : Option String) (fid2 : Nat) (jid2 : String)
        (out2 : DispatchOutcome) (now2 : Nat) (r2 : UploadResult),
        r2 = uploadFile r1.files r1.jobs userId checksum text2 fid2 jid2 out2 now2 →
        r1.response = UploadResponse.accepted JobStatus.queued ∧
        r1.uploadDiscarded = false ∧
        (r1.jobs.getLast?).map Job.status = some JobStatus.queued ∧
        r2.response = UploadResponse.duplicateFile fid ∧
        r2.uploadDiscarded = true ∧
        r2.files = r1.files ∧
        r2.jobs = r1.jobs := by
  intro files jobs userId checksum text fid jid now r1 hdup hr1
    text2 fid2 jid2 out2 now2 r2 hr2
  subst hr1
  subst hr2
  have h1 : uploadFile files jobs userId checksum text fid jid
      DispatchOutcome.success now =
      { response := UploadResponse.accepted JobStatus.queued
        files := files ++ [newFileDoc userId checksum text fid jid]
        jobs := jobs ++ [newProcessingJob jid text now]
        uploadDiscarded := false } := by
    unfold uploadFile
    rw [hdup]
    rfl
  have h2 : findDuplicate (files ++ [newFileDoc userId checksum text fid jid])
      userId checksum = some (newFileDoc userId checksum text fid jid) := by
    unfold findDuplicate at hdup ⊢
    rw [find?_append_left_none _ _ _ hdup]
    simp [newFileDoc]
  rw [h1]
  have h3 : uploadFile (files ++ [newFileDoc userId checksum text fid jid])
      (jobs ++ [newProcessingJob jid text now]) userId checksum
      text2 fid2 jid2 out2 now2 =
      { response := UploadResponse.duplicateFile fid
        files := files ++ [newFileDoc userId checksum text fid jid]
        jobs := jobs ++ [newProcessingJob jid text now]
        uploadDiscarded := true } := by
    unfold uploadFile
    rw [h2]
    rfl
  rw [h3]
  refine ⟨rfl, rfl, ?_, rfl, rfl, rfl, rfl⟩
  simp [List.getLast?_concat, newProcessingJob]

def c7WitnessFile : FileRec :=
  { id := 9, userId := 8, checksum := demoResults, status := FileStatus.completed }

theorem duplicate_upload_rejected_witness :
    findDuplicate [c7WitnessFile] 7 checksumX = none ∧
    ((uploadFile [c7WitnessFile] [] 7 checksumX none 2 demoMessage
          DispatchOutcome.success 0).response =
        UploadResponse.accepted JobStatus.queued ∧
      (uploadFile [c7WitnessFile] [] 7 checksumX none 2 demoMessage
          DispatchOutcome.success 0).uploadDiscarded = false ∧
      (((uploadFile [c7WitnessFile] [] 7 checksumX none 2 demoMessage
            DispatchOutcome.success 0).jobs.getLast?).map Job.status =
        some JobStatus.queued) ∧
      (uploadFile
          (uploadFile [c7WitnessFile] [] 7 checksumX none 2 demoMessage
            DispatchOutcome.success 0).files
          (uploadFile [c7WitnessFile] [] 7 checksumX none 2 demoMessage
            DispatchOutcome.success 0).jobs
          7 checksumX none 3 checksumX DispatchOutcome.failure 1).response =
        UploadResponse.duplicateFile 2 ∧
      (uploadFile
          (uploadFile [c7WitnessFile] [] 7 checksumX none 2 demoMessage
            DispatchOutcome.success 0).files
          (uploadFile [c7WitnessFile] [] 7 checksumX none 2 demoMessage
            DispatchOutcome.success 0).jobs
          7 checksumX none 3 checksumX DispatchOutcome.failure 1).uploadDiscarded = true ∧
      (uploadFile
          (uploadFile [c7WitnessFile] [] 7 checksumX none 2 demoMessage
            DispatchOutcome.success 0).files
          (uploadFile [c7WitnessFile] [] 7 checksumX none 2 demoMessage
            DispatchOutcome.success 0).jobs
          7 checksumX none 3 checksumX DispatchOutcome.failure 1).files =
        (uploadFile [c7WitnessFile] [] 7 checksumX none 2 demoMessage
          DispatchOutcome.success 0).files ∧
      (uploadFile
          (uploadFile [c7WitnessFile] [] 7 checksumX none 2 demoMessage
            DispatchOutcome.success 0).files
          (uploadFile [c7WitnessFile] [] 7 checksumX none 2 demoMessage
            DispatchOutcome.success 0).jobs
          7 checksumX none 3 checksumX DispatchOutcome.failure 1).jobs =
        (uploadFile [c7WitnessFile] [] 7 checksumX none 2 demoMessage
          DispatchOutcome.success 0).jobs) :=
  ⟨by decide,
    duplicate_upload_rejected [c7WitnessFile] [] 7 checksumX none 2 demoMessage 0 _
      (by decide) rfl none 3 checksumX DispatchOutcome.failure 1 _ rfl⟩

/- ===== Claim C8: dispatch outcome ===== -/

def c8QueuedJob : Job := { jobId := "job-c8", status := JobStatus.queued }

def c8File : FileRec :=
  { id := 3, userId := 7, checksum := checksumX, status := FileStatus.processing }

/-- Claim C8 counterexample: a successful dispatch does not
transition the job to processing — the handler writes nothing on
success, so the job stays queued (only the file record was flipped to
processing before the attempt). -/
theorem successful_dispatch_leaves_job_queued_counterexample :
    c8QueuedJob.status = JobStatus.queued ∧
    (applyDispatchOutcome c8QueuedJob c8File DispatchOutcome.success 0).1.status =
      JobStatus.queued ∧
    JobStatus.queued ≠ JobStatus.processing := by
  decide

/-- Claim C8 (amended): on a dispatch throw (network failure or
non-2xx response) the job is immediately set failed with errorDetails
code AI_SERVICE_ERROR and a rebuilt retry counter of 0 — terminally,
nothing re-queues it — and the file is set failed; on a successful
dispatch the job and file are returned untouched, so the job remains
queued and is never transitioned to processing by dispatch. -/
theorem dispatch_outcome_effects :
    (∀ (job : Job) (file : FileRec) (now : Nat),
        (applyDispatchOutcome job file DispatchOutcome.failure now).1.status =
            JobStatus.failed ∧
          (applyDispatchOutcome job file DispatchOutcome.failure now).1.errorDetails =
            some
              { code := aiServiceErrorCode
                message := aiServiceErrorMessage
                timestamp := now
                retryCount := 0
                maxRetries := some defaultMaxRetries } ∧
          currentRetryCount
              (applyDispatchOutcome job file DispatchOutcome.failure now).1 = 0 ∧
          (applyDispatchOutcome job file DispatchOutcome.failure now).2.status =
            FileStatus.failed) ∧
    (∀ (job : Job) (file : FileRec) (now : Nat),
        applyDispatchOutcome job file DispatchOutcome.success now = (job, file)) := by
  constructor
  · intro job file now
    exact ⟨rfl, rfl, rfl, rfl⟩
  · intro job file now
    rfl

/- ===== Claim C9: audit ledger immutability ===== -/

def fileUploadAction : String := "file_upload"

def demoAuditEntry : AuditEntry :=
  { id := 1, action := fileUploadAction, success := true, retentionDeleteAfter := 100 }

/-- Claim C9 counterexample: the ledger schema intercepts only the
save/update paths; no pre hook guards the delete operations.  A
deleteMany issued against an entry whose retention expiry (100) is
still in the future (now = 0) succeeds and removes the entry instead
of failing. -/
theorem audit_delete_not_blocked_counterexample :
    (0 : Nat) < demoAuditEntry.retentionDeleteAfter ∧
    applyLedgerOp [demoAuditEntry] (LedgerOp.deleteMany fun e => e.id == 1) =
      Except.ok [] ∧
    ([] : List AuditEntry) ≠ [demoAuditEntry] := by
  refine ⟨by decide, rfl, by simp⟩

/-- Claim C9 (amended): every update attempt on existing entries
through the ledger interface — a save of an already-persisted
document, findOneAndUpdate, updateOne, updateMany — fails with
"Audit logs cannot be modified" leaving the collection unchanged, and
creation (save of a new document) is accepted; the delete operations,
however, are not intercepted: they run mongoose's default behaviour
and remove matching entries regardless of retention expiry. -/
theorem audit_ledger_update_paths_blocked :
    (∀ (ledger : List AuditEntry) (op : LedgerOp), op.isUpdateAttempt →
        applyLedgerOp ledger op = Except.error auditImmutableMessage) ∧
    (∀ (ledger : List AuditEntry) (e : AuditEntry),
        applyLedgerOp ledger (LedgerOp.save e true) = Except.ok (ledger ++ [e])) ∧
    (∀ (ledger : List AuditEntry) (p : AuditEntry → Bool),
        applyLedgerOp ledger (LedgerOp.deleteMany p) =
          Except.ok (ledger.filter fun e => ! p e)) := by
  refine ⟨?_, fun ledger e => rfl, fun ledger p => rfl⟩
  intro ledger op h
  cases op with
  | save e isNew =>
    cases isNew with
    | true => exact absurd h (by simp [LedgerOp.isUpdateAttempt])
    | false => rfl
  | findOneAndUpdate f u => rfl
  | updateOne f u => rfl
  | updateMany f u => rfl
  | deleteOne f => exact absurd h (by simp [LedgerOp.isUpdateAttempt])
  | deleteMany f => exact absurd h (by simp [LedgerOp.isUpdateAttempt])

theorem audit_ledger_update_paths_blocked_witness :
    (LedgerOp.updateOne (fun e => e.id == 1) id).isUpdateAttempt ∧
    applyLedgerOp [demoAuditEntry] (LedgerOp.updateOne (fun e => e.id == 1) id) =
      Except.error auditImmutableMessage :=
  ⟨trivial,
    audit_ledger_update_paths_blocked.1 [demoAuditEntry]
      (LedgerOp.updateOne (fun e => e.id == 1) id) trivial⟩

end MediScan
